import Mathlib

/-!
Verification of the WHO GHO MCP server's query-composition and
response-normalization layer (`src/who-api.js` and the tool-dispatch shell).

JavaScript values are embedded shallowly as `JSVal`; the loose-typing
conventions the source relies on (truthiness, `||` defaulting, property
access returning `undefined`, `for...of` iteration) are modelled explicitly.
Numbers are modelled as integers: the source never performs arithmetic on
upstream numbers, it only tests them for truthiness and passes them through.
-/

/-- A JavaScript value, as used by the WHO API layer: `undefined`, `null`,
booleans, (integer) numbers, strings, arrays, and plain objects represented
as ordered association lists of fields. -/
inductive JSVal where
  | undef : JSVal
  | null : JSVal
  | bool (b : Bool) : JSVal
  | num (n : Int) : JSVal
  | str (s : String) : JSVal
  | arr (elems : List JSVal) : JSVal
  | obj (fields : List (String × JSVal)) : JSVal

/-- JavaScript truthiness: `undefined`, `null`, `false`, `0` and `""` are
falsy; every other value (including empty arrays and objects) is truthy. -/
def truthy : JSVal → Bool
  | .undef => false
  | .null => false
  | .bool b => b
  | .num n => n != 0
  | .str s => s != ""
  | .arr _ => true
  | .obj _ => true

/-- Property access that never throws (models `v?.k`, and plain `v.k` on a
value already known not to be nullish): a lookup on objects, `undefined` on
everything else. -/
def jsGetField : JSVal → String → JSVal
  | .obj fields, k =>
    match fields.find? (fun p => p.1 == k) with
    | some p => p.2
    | none => JSVal.undef
  | _, _ => JSVal.undef

/-- Models the JavaScript `a || b` defaulting idiom. -/
def jsOr (a b : JSVal) : JSVal := if truthy a then a else b

/-- Is the value `null` or `undefined` (property access on it throws)? -/
def jsNullish : JSVal → Bool
  | .null => true
  | .undef => true
  | _ => false

mutual

/-- Structural (value) equality on `JSVal`. On primitive values this agrees
with JavaScript's SameValueZero comparison used by `Set`. -/
def jsEq : JSVal → JSVal → Bool
  | .undef, .undef => true
  | .null, .null => true
  | .bool a, .bool b => a == b
  | .num a, .num b => a == b
  | .str a, .str b => a == b
  | .arr a, .arr b => jsEqList a b
  | .obj a, .obj b => jsEqFields a b
  | _, _ => false

/-- Elementwise `jsEq` on lists of values. -/
def jsEqList : List JSVal → List JSVal → Bool
  | [], [] => true
  | x :: xs, y :: ys => jsEq x y && jsEqList xs ys
  | _, _ => false

/-- Elementwise `jsEq` on field lists. -/
def jsEqFields : List (String × JSVal) → List (String × JSVal) → Bool
  | [], [] => true
  | (k, v) :: xs, (k2, v2) :: ys => k == k2 && jsEq v v2 && jsEqFields xs ys
  | _, _ => false

end

mutual

theorem jsEq_iff : ∀ (a b : JSVal), jsEq a b = true ↔ a = b
  | .undef, b => by cases b <;> simp [jsEq]
  | .null, b => by cases b <;> simp [jsEq]
  | .bool a, b => by cases b <;> simp [jsEq]
  | .num a, b => by cases b <;> simp [jsEq]
  | .str a, b => by cases b <;> simp [jsEq]
  | .arr xs, b => by
    cases b <;> simp [jsEq]
    exact jsEqList_iff xs _
  | .obj fs, b => by
    cases b <;> simp [jsEq]
    exact jsEqFields_iff fs _

theorem jsEqList_iff : ∀ (xs ys : List JSVal), jsEqList xs ys = true ↔ xs = ys
  | [], [] => by simp [jsEqList]
  | [], _ :: _ => by simp [jsEqList]
  | _ :: _, [] => by simp [jsEqList]
  | x :: xs, y :: ys => by
    simp [jsEqList, Bool.and_eq_true, jsEq_iff x y, jsEqList_iff xs ys]

theorem jsEqFields_iff :
    ∀ (xs ys : List (String × JSVal)), jsEqFields xs ys = true ↔ xs = ys
  | [], [] => by simp [jsEqFields]
  | [], _ :: _ => by simp [jsEqFields]
  | _ :: _, [] => by simp [jsEqFields]
  | (k, v) :: xs, (k2, v2) :: ys => by
    simp [jsEqFields, Bool.and_eq_true, jsEq_iff v v2, jsEqFields_iff xs ys,
      and_assoc]

end

instance : DecidableEq JSVal := fun a b => decidable_of_iff _ (jsEq_iff a b)

mutual

/-- JavaScript string coercion (as in template literals `${v}`): strings are
themselves, numbers print in decimal, arrays join their elements with a comma
(with `null`/`undefined` elements printing as empty), plain objects print as
`[object Object]`. -/
def jsToString : JSVal → String
  | .undef => "undefined"
  | .null => "null"
  | .bool true => "true"
  | .bool false => "false"
  | .num n => toString n
  | .str s => s
  | .arr xs => jsToStringList xs
  | .obj _ => "[object Object]"

/-- Array-join coercion: elements separated by commas, nullish elements
rendered as the empty string (JavaScript `Array.prototype.toString`). -/
def jsToStringList : List JSVal → String
  | [] => ""
  | [x] => if jsNullish x then "" else jsToString x
  | x :: xs =>
    (if jsNullish x then "" else jsToString x) ++ "," ++ jsToStringList xs

end

/-- `for...of` iteration: arrays yield their elements, strings yield their
characters as one-character strings, any other value is not iterable and the
loop throws a `TypeError`. -/
def jsIter : JSVal → Except String (List JSVal)
  | .arr xs => .ok xs
  | .str s => .ok (s.toList.map (fun c => .str (String.singleton c)))
  | _ => .error "TypeError: result.value is not iterable"

/-- Rest destructuring `const \x7b method, ...params \x7d = args`: drops the
named field from an object; on a non-nullish primitive it yields an empty
object (nullish `args` throws, handled by callers before this is used). -/
def jsOmit : JSVal → String → JSVal
  | .obj fields, k => .obj (fields.filter (fun p => p.1 != k))
  | _, _ => .obj []

/-- The outbound request URL, kept structured: the WHO OData base address is
fixed, `endpoint` is the path segment appended when truthy, and `query` holds
the query-string parameters in insertion order after `URLSearchParams`
stringification. (The percent-encoding applied by `URLSearchParams.toString`
is not modelled; no property below inspects an encoded URL string.) -/
structure WhoUrl where
  endpoint : Option String
  query : List (String × String)
deriving DecidableEq

/-- Is this query-parameter value kept? `generateWhoODataUrl` drops values
that are strictly `undefined`, `null` or the empty string. -/
def keepParam : JSVal → Bool
  | .undef => false
  | .null => false
  | .str s => s != ""
  | _ => true

/-- Embeds `generateWhoODataUrl` from `src/who-api.js`: append the endpoint
when truthy, then keep every parameter whose value is not `undefined`, `null`
or `''`, stringifying it for the query string. -/
def generateWhoODataUrl (endpoint : JSVal) (params : List (String × JSVal)) :
    WhoUrl :=
  { endpoint := if truthy endpoint then some (jsToString endpoint) else none
    query := (params.filter (fun p => keepParam p.2)).map
      (fun p => (p.1, jsToString p.2)) }

/-- Renders a `WhoUrl` as the request URL string stored in `api_url`
(percent-encoding not modelled, see `WhoUrl`). -/
def whoUrlString (u : WhoUrl) : String :=
  let base := "https://ghoapi.azureedge.net/api"
  let withPath :=
    match u.endpoint with
    | some e => base ++ "/" ++ e
    | none => base
  match u.query with
  | [] => withPath
  | q => withPath ++ "?" ++
      String.intercalate "&" (q.map (fun p => p.1 ++ "=" ++ p.2))

/-- Provenance label attached to every result. -/
def sourceLabel : String := "WHO Global Health Observatory (OData API)"

/-- Projects one upstream record to a Dimension (`getDimensions` loop body):
each field defaults to the empty string via `||`. Plain property access on a
nullish record throws. -/
def projDimension : JSVal → Except String JSVal
  | .null => .error "TypeError: cannot read properties of null"
  | .undef => .error "TypeError: cannot read properties of undefined"
  | dim => .ok (.obj [
      ("code", jsOr (jsGetField dim "Code") (.str "")),
      ("title", jsOr (jsGetField dim "Title") (.str "")),
      ("description", jsOr (jsGetField dim "Description") (.str ""))])

/-- Projects one upstream record to a DimensionCode (`getDimensionCodes` loop
body): fields default to the empty string, `parent_code` defaults to null. -/
def projDimensionCode : JSVal → Except String JSVal
  | .null => .error "TypeError: cannot read properties of null"
  | .undef => .error "TypeError: cannot read properties of undefined"
  | code => .ok (.obj [
      ("code", jsOr (jsGetField code "Code") (.str "")),
      ("title", jsOr (jsGetField code "Title") (.str "")),
      ("description", jsOr (jsGetField code "Description") (.str "")),
      ("parent_code", jsOr (jsGetField code "ParentCode") .null)])

/-- Projects one upstream record to an Indicator (`searchIndicators` loop
body). -/
def projIndicator : JSVal → Except String JSVal
  | .null => .error "TypeError: cannot read properties of null"
  | .undef => .error "TypeError: cannot read properties of undefined"
  | ind => .ok (.obj [
      ("code", jsOr (jsGetField ind "IndicatorCode") (.str "")),
      ("name", jsOr (jsGetField ind "IndicatorName") (.str "")),
      ("category", jsOr (jsGetField ind "Category") (.str "")),
      ("definition", jsOr (jsGetField ind "Definition") (.str "")),
      ("method", jsOr (jsGetField ind "Method") (.str "")),
      ("interpretation", jsOr (jsGetField ind "Interpretation") (.str ""))])

/-- Projects one upstream record to a DataPoint (`getHealthData` loop body):
`value` prefers the textual `Value` then falls back to `NumericValue` then
`''`; `numeric_value` is `NumericValue || null`; `display_value` is
`Value || ''`; the remaining fields default to the empty string. -/
def projDataPoint (indicatorCode : JSVal) : JSVal → Except String JSVal
  | .null => .error "TypeError: cannot read properties of null"
  | .undef => .error "TypeError: cannot read properties of undefined"
  | fact => .ok (.obj [
      ("indicator", indicatorCode),
      ("value", jsOr (jsOr (jsGetField fact "Value")
        (jsGetField fact "NumericValue")) (.str "")),
      ("numeric_value", jsOr (jsGetField fact "NumericValue") .null),
      ("display_value", jsOr (jsGetField fact "Value") (.str "")),
      ("spatial_dim", jsOr (jsGetField fact "SpatialDim") (.str "")),
      ("time_dim", jsOr (jsGetField fact "TimeDim") (.str "")),
      ("time_dim_begin", jsOr (jsGetField fact "TimeDimensionBegin") (.str "")),
      ("time_dim_end", jsOr (jsGetField fact "TimeDimensionEnd") (.str "")),
      ("dim1", jsOr (jsGetField fact "Dim1") (.str "")),
      ("dim2", jsOr (jsGetField fact "Dim2") (.str "")),
      ("dim3", jsOr (jsGetField fact "Dim3") (.str "")),
      ("comments", jsOr (jsGetField fact "Comments") (.str "")),
      ("data_source_code", jsOr (jsGetField fact "DataSourceCode") (.str ""))])

/-- The shared `if (result?.value) \x7b for (const x of result.value) ... \x7d`
pattern: when the payload's `value` field is truthy it is iterated and each
record projected, otherwise the result list stays empty. -/
def parseValueList (payload : JSVal) (proj : JSVal → Except String JSVal) :
    Except String (List JSVal) :=
  let v := jsGetField payload "value"
  if truthy v then do
    let items ← jsIter v
    items.mapM proj
  else .ok []

/-- Result of running one operation against a decoded upstream payload.
`errorBefore` is an exception thrown before any network call is made;
`errorAfter` is one thrown while projecting the (already fetched) payload;
`success` carries the outbound request URL and the returned object. -/
inductive Outcome where
  | errorBefore (msg : String) : Outcome
  | errorAfter (url : WhoUrl) (msg : String) : Outcome
  | success (url : WhoUrl) (result : JSVal) : Outcome
deriving DecidableEq

/-- Intermediate result of `getHealthData` before the envelope is built,
keeping the projected DataPoint list accessible (as `getCrossTable` needs
it). -/
inductive HDRun where
  | noCall (msg : String) : HDRun
  | failed (url : WhoUrl) (msg : String) : HDRun
  | ok (url : WhoUrl) (data : List JSVal) : HDRun
deriving DecidableEq

/-- The request URL `getHealthData` builds: the indicator code as endpoint,
with `$filter`/`$top`/`$orderby` parameters assembled from the truthy
arguments in that order. -/
def hdUrl (filter top orderby : JSVal) (indicator_code : JSVal) : WhoUrl :=
  generateWhoODataUrl indicator_code
    ((if truthy filter then [("$filter", filter)] else []) ++
     (if truthy top then [("$top", top)] else []) ++
     (if truthy orderby then [("$orderby", orderby)] else []))

/-- Embeds the body of `getHealthData` (after destructuring): require a
truthy `indicator_code`, assemble `$filter`/`$top`/`$orderby` from the truthy
parameters, build the URL, and project the payload's records. -/
def healthDataRun (indicator_code filter top orderby payload : JSVal) :
    HDRun :=
  if truthy indicator_code then
    match parseValueList payload (projDataPoint indicator_code) with
    | .error e => .failed (hdUrl filter top orderby indicator_code) e
    | .ok data => .ok (hdUrl filter top orderby indicator_code) data
  else .noCall "indicator_code parameter is required"

/-- Wraps a health-data run into the envelope `getHealthData` returns. -/
def healthEnvelope (indicator_code : JSVal) : HDRun → Outcome
  | .noCall msg => .errorBefore msg
  | .failed url msg => .errorAfter url msg
  | .ok url data => .success url (.obj [
      ("indicator", indicator_code),
      ("data", .arr data),
      ("total_count", .num data.length),
      ("source", .str sourceLabel),
      ("api_url", .str (whoUrlString url))])

/-- Embeds `getDimensions`. -/
def getDimensionsOp (payload : JSVal) : Outcome :=
  let url := generateWhoODataUrl (.str "Dimension") []
  match parseValueList payload projDimension with
  | .error e => .errorAfter url e
  | .ok dimensions => .success url (.obj [
      ("dimensions", .arr dimensions),
      ("total_count", .num dimensions.length),
      ("source", .str sourceLabel),
      ("api_url", .str (whoUrlString url))])

/-- Embeds `getDimensionCodes`. -/
def getDimensionCodesOp (dimensionCode payload : JSVal) : Outcome :=
  let url := generateWhoODataUrl
    (.str ("DIMENSION/" ++ jsToString dimensionCode ++ "/DimensionValues")) []
  match parseValueList payload projDimensionCode with
  | .error e => .errorAfter url e
  | .ok codes => .success url (.obj [
      ("dimension", dimensionCode),
      ("codes", .arr codes),
      ("total_count", .num codes.length),
      ("source", .str sourceLabel),
      ("api_url", .str (whoUrlString url))])

/-- Embeds `getHealthData` itself: destructures its parameter object (which
throws on a nullish argument) and delegates to `healthDataRun`. -/
def getHealthDataOp (params payload : JSVal) : Outcome :=
  if jsNullish params then .errorBefore "TypeError: cannot destructure params"
  else healthEnvelope (jsGetField params "indicator_code")
    (healthDataRun (jsGetField params "indicator_code")
      (jsGetField params "filter") (jsGetField params "top")
      (jsGetField params "orderby") payload)

/-- Embeds `searchIndicators`: one unescaped `contains` filter clause over
the indicator name. -/
def searchIndicatorsOp (keywords payload : JSVal) : Outcome :=
  let filter := "contains(IndicatorName,\x27" ++ jsToString keywords ++ "\x27)"
  let url := generateWhoODataUrl (.str "Indicator") [("$filter", .str filter)]
  match parseValueList payload projIndicator with
  | .error e => .errorAfter url e
  | .ok indicators => .success url (.obj [
      ("keywords", keywords),
      ("indicators", .arr indicators),
      ("total_count", .num indicators.length),
      ("source", .str sourceLabel),
      ("api_url", .str (whoUrlString url))])

/-- Renders an optional derived filter the way it is passed on to
`getHealthData`: `null` when no constraint was set. -/
def optFilterToJS : Option String → JSVal
  | some s => .str s
  | none => .null

/-- Embeds the filter derivation of `getCountryData`: an equality clause per
truthy parameter (`SpatialDim`, `TimeDim`, `Dim1`), joined with `and`, or
null when no clause was produced. String parameters are single-quoted with no
escaping. -/
def countryDataFilter (country_code year sex : JSVal) : Option String :=
  let filters :=
    (if truthy country_code then
      ["SpatialDim eq \x27" ++ jsToString country_code ++ "\x27"] else []) ++
    (if truthy year then ["TimeDim eq " ++ jsToString year] else []) ++
    (if truthy sex then ["Dim1 eq \x27" ++ jsToString sex ++ "\x27"] else [])
  if filters.length > 0 then some (String.intercalate " and " filters)
  else none

/-- Embeds `getCountryData`: requires a truthy `indicator_code`, derives the
filter and delegates to `getHealthData` with a fixed `TimeDim desc`
ordering. -/
def getCountryDataOp (params payload : JSVal) : Outcome :=
  if jsNullish params then .errorBefore "TypeError: cannot destructure params"
  else if truthy (jsGetField params "indicator_code") then
    healthEnvelope (jsGetField params "indicator_code")
      (healthDataRun (jsGetField params "indicator_code")
        (optFilterToJS (countryDataFilter (jsGetField params "country_code")
          (jsGetField params "year") (jsGetField params "sex")))
        (jsGetField params "top") (.str "TimeDim desc") payload)
  else .errorBefore "indicator_code parameter is required"

/-- Splits a list of characters at every occurrence of the separator
(`String.prototype.split` with a one-character separator). -/
def splitChars (sep : Char) : List Char → List (List Char)
  | [] => [[]]
  | c :: cs =>
    let rest := splitChars sep cs
    if c = sep then [] :: rest
    else
      match rest with
      | [] => [[c]]
      | h :: t => (c :: h) :: t

/-- JavaScript `s.split(sep)` for a one-character separator: always yields at
least one (possibly empty) piece. -/
def jsSplit (s : String) (sep : Char) : List String :=
  (splitChars sep s.toList).map List.asString

/-- JavaScript `s.trim()`: strips leading and trailing whitespace. -/
def jsTrim (s : String) : String :=
  (((s.toList.dropWhile Char.isWhitespace).reverse.dropWhile
    Char.isWhitespace).reverse).asString

/-- JavaScript `s.includes(c)` for a one-character needle. -/
def jsIncludes (s : String) (c : Char) : Bool := s.toList.contains c

/-- Embeds the filter derivation of `getCrossTable`: a truthy `countries`
string is split on commas into a single-quoted `SpatialDim in (...)` clause;
a truthy `years` string containing `:` is split into an inclusive
`TimeDim ge lower and TimeDim le upper` range, otherwise it becomes a
`TimeDim eq` clause; a truthy `sex` adds a `Dim1 eq` clause. Calling the
string methods `split`/`includes` on a truthy non-string throws. -/
def crossTableFilter (countries years sex : JSVal) :
    Except String (Option String) :=
  let countryClauses : Except String (List String) :=
    if truthy countries then
      match countries with
      | .str s => .ok ["SpatialDim in (" ++ String.intercalate ","
          ((jsSplit s ',').map (fun c => "\x27" ++ jsTrim c ++ "\x27")) ++ ")"]
      | _ => .error "TypeError: countries.split is not a function"
    else .ok []
  let yearClauses : Except String (List String) :=
    if truthy years then
      match years with
      | .str s =>
        if jsIncludes s ':' then
          let parts := jsSplit s ':'
          .ok ["TimeDim ge " ++ parts.getD 0 "" ++ " and TimeDim le " ++
            parts.getD 1 ""]
        else .ok ["TimeDim eq " ++ s]
      | _ => .error "TypeError: years.includes is not a function"
    else .ok []
  match countryClauses, yearClauses with
  | .error e, _ => .error e
  | .ok _, .error e => .error e
  | .ok f1, .ok f2 =>
    let f3 := if truthy sex then
      ["Dim1 eq \x27" ++ jsToString sex ++ "\x27"] else []
    let filters := f1 ++ f2 ++ f3
    .ok (if filters.length > 0 then
      some (String.intercalate " and " filters) else none)

/-- The elements of `new Set(xs)` in insertion order (first occurrences).
JavaScript `Set` compares with SameValueZero, which on the primitive values
the projections produce coincides with structural equality. -/
def jsSetElems (xs : List JSVal) : List JSVal :=
  xs.foldl (fun acc v => if v ∈ acc then acc else acc ++ [v]) []

/-- Models `[...new Set(xs)].length`. -/
def jsSetSize (xs : List JSVal) : Nat := (jsSetElems xs).length

/-- Embeds `getCrossTable`: requires a truthy `indicator_code`, applies the
destructuring default `top = 1000` (only when `top` is absent/`undefined`),
derives the filter, delegates to `getHealthData` with the fixed
`SpatialDim, TimeDim desc` ordering, and assembles the cross-table object
with its summary of distinct spatial/time values and the record count. -/
def getCrossTableOp (params payload : JSVal) : Outcome :=
  if jsNullish params then .errorBefore "TypeError: cannot destructure params"
  else if truthy (jsGetField params "indicator_code") then
    match crossTableFilter (jsGetField params "countries")
        (jsGetField params "years") (jsGetField params "sex") with
    | .error e => .errorBefore e
    | .ok filterString =>
      match healthDataRun (jsGetField params "indicator_code")
          (optFilterToJS filterString)
          (match jsGetField params "top" with
            | .undef => .num 1000
            | v => v)
          (.str "SpatialDim, TimeDim desc") payload with
      | .noCall msg => .errorBefore msg
      | .failed url msg => .errorAfter url msg
      | .ok url data => .success url (.obj [
          ("indicator", jsGetField params "indicator_code"),
          ("structured_data", .arr data),
          ("summary", .obj [
            ("unique_countries", .num (jsSetSize
              (data.map (fun d => jsGetField d "spatial_dim")))),
            ("unique_years", .num (jsSetSize
              (data.map (fun d => jsGetField d "time_dim")))),
            ("total_records", .num data.length)]),
          ("source", .str sourceLabel),
          ("api_url", .str (whoUrlString url))])
  else .errorBefore "indicator_code parameter is required"

/-- Embeds the `who-health` tool dispatcher from the MCP server shell:
destructures `method` out of the arguments, validates the per-method required
parameter before any api-function (and hence network) activity, and routes to
the corresponding operation. -/
def callTool (args payload : JSVal) : Outcome :=
  if jsNullish args then
    .errorBefore "TypeError: cannot destructure request arguments"
  else if jsGetField args "method" = .str "get_dimensions" then
    getDimensionsOp payload
  else if jsGetField args "method" = .str "get_dimension_codes" then
    if truthy (jsGetField (jsOmit args "method") "dimension_code") then
      getDimensionCodesOp (jsGetField (jsOmit args "method") "dimension_code")
        payload
    else .errorBefore
      "dimension_code parameter is required for get_dimension_codes"
  else if jsGetField args "method" = .str "get_health_data" then
    if truthy (jsGetField (jsOmit args "method") "indicator_code") then
      getHealthDataOp (jsOmit args "method") payload
    else .errorBefore
      "indicator_code parameter is required for get_health_data"
  else if jsGetField args "method" = .str "search_indicators" then
    if truthy (jsGetField (jsOmit args "method") "keywords") then
      searchIndicatorsOp (jsGetField (jsOmit args "method") "keywords") payload
    else .errorBefore "keywords parameter is required for search_indicators"
  else if jsGetField args "method" = .str "get_country_data" then
    if truthy (jsGetField (jsOmit args "method") "indicator_code") then
      getCountryDataOp (jsOmit args "method") payload
    else .errorBefore
      "indicator_code parameter is required for get_country_data"
  else if jsGetField args "method" = .str "get_cross_table" then
    if truthy (jsGetField (jsOmit args "method") "indicator_code") then
      getCrossTableOp (jsOmit args "method") payload
    else .errorBefore
      "indicator_code parameter is required for get_cross_table"
  else .errorBefore ("Unknown method: " ++ jsToString (jsGetField args "method"))

/-- Did the operation succeed? -/
def Outcome.isSuccess : Outcome → Bool
  | .success _ _ => true
  | _ => false

/-- The outbound request URL, when a network call was made at all. -/
def outcomeUrl : Outcome → Option WhoUrl
  | .errorBefore _ => none
  | .errorAfter u _ => some u
  | .success u _ => some u

/-- The returned object of a successful operation (`undefined` otherwise). -/
def outcomeRes : Outcome → JSVal
  | .success _ r => r
  | _ => JSVal.undef

/-- The value of a query-string parameter of the outbound URL, if present. -/
def lookupParam (u : WhoUrl) (k : String) : Option String :=
  (u.query.find? (fun p => p.1 == k)).map (fun p => p.2)

/-- The `$filter` parameter actually sent upstream, if any. -/
def outboundFilter (o : Outcome) : Option String :=
  match outcomeUrl o with
  | some u => lookupParam u "$filter"
  | none => none

/-- A payload whose `value` field is falsy normalizes to the empty record
list without an error. -/
theorem parseValueList_falsy (payload : JSVal)
    (proj : JSVal → Except String JSVal)
    (h : truthy (jsGetField payload "value") = false) :
    parseValueList payload proj = .ok [] := by
  simp [parseValueList, h]

/-- Dropping the entries carrying one key leaves lookups of every other key
unchanged. -/
theorem find?_filter_ne (t : List (String × JSVal)) (k k2 : String)
    (h : k2 ≠ k) :
    (t.filter (fun p => p.1 != k)).find? (fun p => p.1 == k2) =
      t.find? (fun p => p.1 == k2) := by
  induction t with
  | nil => rfl
  | cons a t ih =>
    by_cases hak : a.1 = k
    · have hd : (a.1 != k) = false := by simp [hak]
      have hm : (a.1 == k2) = false := by
        rw [beq_eq_false_iff_ne, hak]
        exact fun hh => h hh.symm
      simp [List.filter_cons, hd, List.find?_cons, hm, ih]
    · have hd : (a.1 != k) = true := by simp [hak]
      by_cases hm : a.1 = k2
      · have hb : (a.1 == k2) = true := by simp [hm]
        simp [List.filter_cons, hd, List.find?_cons, hb]
      · have hb : (a.1 == k2) = false := by simp [hm]
        simp [List.filter_cons, hd, List.find?_cons, hb, ih]

/-- Rest destructuring away `method` does not change any other field. -/
theorem jsGetField_omit (v : JSVal) (k k2 : String) (h : k2 ≠ k) :
    jsGetField (jsOmit v k) k2 = jsGetField v k2 := by
  cases v
  case obj fields =>
    simp only [jsOmit, jsGetField]
    rw [find?_filter_ne fields k k2 h]
  all_goals rfl

/-- A value with a string-valued field is not nullish. -/
theorem jsNullish_eq_false_of_getField {v : JSVal} {k s : String}
    (h : jsGetField v k = .str s) : jsNullish v = false := by
  cases v <;> simp_all [jsGetField, jsNullish]

/-- Inserting list elements one by one, skipping the ones already seen,
accumulates exactly the distinct elements. -/
theorem jsSetElems_go (l : List JSVal) :
    ∀ acc : List JSVal, acc.Nodup →
      (l.foldl (fun acc v => if v ∈ acc then acc else acc ++ [v]) acc).length
        = (acc.toFinset ∪ l.toFinset).card := by
  induction l with
  | nil =>
    intro acc h
    simp [List.toFinset_card_of_nodup h]
  | cons v l ih =>
    intro acc h
    simp only [List.foldl_cons]
    by_cases hv : v ∈ acc
    · rw [if_pos hv, ih acc h]
      congr 1
      rw [List.toFinset_cons, Finset.union_insert,
        Finset.insert_eq_self.mpr (Finset.mem_union_left _
          (List.mem_toFinset.mpr hv))]
    · rw [if_neg hv]
      have h2 : (acc ++ [v]).Nodup := by
        simp [List.nodup_append, h, hv]
      rw [ih _ h2]
      congr 1
      simp only [List.toFinset_append, List.toFinset_cons, List.toFinset_nil,
        Finset.insert_eq, Finset.union_assoc, Finset.empty_union]

/-- The size of `new Set(xs)` is the number of distinct elements of `xs`. -/
theorem jsSetSize_eq_card (l : List JSVal) :
    jsSetSize l = l.toFinset.card := by
  simpa [jsSetSize, jsSetElems] using jsSetElems_go l [] (by simp)

/-- A query built from parameters that never use the key `k` does not
contain `k`. -/
theorem lookupParam_generate_none (endpoint : JSVal)
    (qp : List (String × JSVal)) (k : String) (h : ∀ e ∈ qp, e.1 ≠ k) :
    lookupParam (generateWhoODataUrl endpoint qp) k = none := by
  have hf : List.find? (fun p => p.1 == k)
      ((qp.filter (fun p => keepParam p.2)).map
        (fun p => (p.1, jsToString p.2))) = none := by
    rw [List.find?_eq_none]
    intro x hx
    rcases List.mem_map.mp hx with ⟨pre, hpre, rfl⟩
    have hmem : pre ∈ qp := (List.mem_filter.mp hpre).1
    simpa using h pre hmem
  simp [lookupParam, generateWhoODataUrl, hf]

/-- A result object carries a list at `key` and a `total_count` field equal
to that list's length. -/
def hasCountedList (r : JSVal) (key : String) : Prop :=
  ∃ xs : List JSVal, jsGetField r key = .arr xs ∧
    jsGetField r "total_count" = .num xs.length

/-- A payload that yields three distinct dimension records. -/
def c1Payload : JSVal := .obj [("value", .arr [
  .obj [("Code", .str "COUNTRY"), ("Title", .str "Country")],
  .obj [("Code", .str "REGION")],
  .obj []])]

/-- C1 (corrected): the claim names get-cross-table among the operations
whose returned value carries a `total_count` field, but the cross-table
result object has no such field: on a successful call its record count is
reported only as `summary.total_records`. -/
theorem crossTable_lacks_total_count :
    (getCrossTableOp (.obj [("indicator_code", .str "X")])
      (.obj [("value", .arr [.obj [("SpatialDim", .str "USA")]])])).isSuccess
        = true
  ∧ jsGetField (outcomeRes (getCrossTableOp
      (.obj [("indicator_code", .str "X")])
      (.obj [("value", .arr [.obj [("SpatialDim", .str "USA")]])])))
      "structured_data" ≠ .undef
  ∧ jsGetField (outcomeRes (getCrossTableOp
      (.obj [("indicator_code", .str "X")])
      (.obj [("value", .arr [.obj [("SpatialDim", .str "USA")]])])))
      "total_count" = .undef := by
  exact ⟨by decide, by decide, by decide⟩

/-- C1 (amended): for the five list-returning operations the returned value
contains a `total_count` field equal to the length of the result list it
accompanies (including length zero); get-cross-table instead reports that
length as `summary.total_records`. -/
theorem total_count_matches_list_length :
    (∀ p u r, getDimensionsOp p = .success u r → hasCountedList r "dimensions")
  ∧ (∀ dc p u r, getDimensionCodesOp dc p = .success u r →
      hasCountedList r "codes")
  ∧ (∀ params p u r, getHealthDataOp params p = .success u r →
      hasCountedList r "data")
  ∧ (∀ kw p u r, searchIndicatorsOp kw p = .success u r →
      hasCountedList r "indicators")
  ∧ (∀ params p u r, getCountryDataOp params p = .success u r →
      hasCountedList r "data")
  ∧ (∀ params p u r, getCrossTableOp params p = .success u r →
      ∃ xs : List JSVal, jsGetField r "structured_data" = .arr xs ∧
        jsGetField (jsGetField r "summary") "total_records" =
          .num xs.length) := by
  refine ⟨?_, ?_, ?_, ?_, ?_, ?_⟩
  · intro p u r h
    unfold getDimensionsOp at h
    cases hpv : parseValueList p projDimension with
    | error e => simp [hpv] at h
    | ok dims =>
      rw [hpv] at h
      cases h
      exact ⟨dims, rfl, rfl⟩
  · intro dc p u r h
    unfold getDimensionCodesOp at h
    cases hpv : parseValueList p projDimensionCode with
    | error e => simp [hpv] at h
    | ok codes =>
      rw [hpv] at h
      cases h
      exact ⟨codes, rfl, rfl⟩
  · intro params p u r h
    unfold getHealthDataOp at h
    by_cases hn : jsNullish params = true
    · rw [if_pos hn] at h
      exact Outcome.noConfusion h
    · rw [if_neg hn] at h
      cases hrun : healthDataRun (jsGetField params "indicator_code")
          (jsGetField params "filter") (jsGetField params "top")
          (jsGetField params "orderby") p with
      | noCall m => simp [hrun, healthEnvelope] at h
      | failed url m => simp [hrun, healthEnvelope] at h
      | ok url data =>
        rw [hrun] at h
        unfold healthEnvelope at h
        cases h
        exact ⟨data, rfl, rfl⟩
  · intro kw p u r h
    unfold searchIndicatorsOp at h
    cases hpv : parseValueList p projIndicator with
    | error e => simp [hpv] at h
    | ok inds =>
      rw [hpv] at h
      cases h
      exact ⟨inds, rfl, rfl⟩
  · intro params p u r h
    unfold getCountryDataOp at h
    by_cases hn : jsNullish params = true
    · rw [if_pos hn] at h
      exact Outcome.noConfusion h
    · rw [if_neg hn] at h
      by_cases htr : truthy (jsGetField params "indicator_code") = true
      · rw [if_pos htr] at h
        cases hrun : healthDataRun (jsGetField params "indicator_code")
            (optFilterToJS (countryDataFilter
              (jsGetField params "country_code") (jsGetField params "year")
              (jsGetField params "sex")))
            (jsGetField params "top") (.str "TimeDim desc") p with
        | noCall m => simp [hrun, healthEnvelope] at h
        | failed url m => simp [hrun, healthEnvelope] at h
        | ok url data =>
          rw [hrun] at h
          unfold healthEnvelope at h
          cases h
          exact ⟨data, rfl, rfl⟩
      · rw [if_neg htr] at h
        exact Outcome.noConfusion h
  · intro params p u r h
    unfold getCrossTableOp at h
    by_cases hn : jsNullish params = true
    · rw [if_pos hn] at h
      exact Outcome.noConfusion h
    · rw [if_neg hn] at h
      by_cases htr : truthy (jsGetField params "indicator_code") = true
      · rw [if_pos htr] at h
        cases hcf : crossTableFilter (jsGetField params "countries")
            (jsGetField params "years") (jsGetField params "sex") with
        | error e =>
          simp only [hcf] at h
          exact Outcome.noConfusion h
        | ok fs =>
          simp only [hcf] at h
          cases hrun : healthDataRun (jsGetField params "indicator_code")
              (optFilterToJS fs)
              (match jsGetField params "top" with
                | .undef => .num 1000
                | v => v)
              (.str "SpatialDim, TimeDim desc") p with
          | noCall m => simp [hrun] at h
          | failed url m => simp [hrun] at h
          | ok url data =>
            simp only [hrun] at h
            cases h
            exact ⟨data, rfl, rfl⟩
      · rw [if_neg htr] at h
        exact Outcome.noConfusion h

/-- C1 witness: on a concrete three-record payload, `getDimensions` returns
`total_count = 3` alongside its three-element `dimensions` list. -/
theorem total_count_matches_list_length_witness :
    hasCountedList (outcomeRes (getDimensionsOp c1Payload)) "dimensions" :=
  total_count_matches_list_length.1 c1Payload
    { endpoint := some "Dimension", query := [] }
    (outcomeRes (getDimensionsOp c1Payload)) (by rfl)

/-- A health-data run over a payload with a falsy `value` field performs the
network call and yields the empty DataPoint list. -/
theorem healthDataRun_falsy (ic f t o p : JSVal) (hic : truthy ic = true)
    (hp : truthy (jsGetField p "value") = false) :
    healthDataRun ic f t o p = .ok (hdUrl f t o ic) [] := by
  unfold healthDataRun
  rw [if_pos hic, parseValueList_falsy _ _ hp]

/-- The operation succeeded with an empty list at `key` and
`total_count = 0`. -/
def succeedsEmptyList (o : Outcome) (key : String) : Prop :=
  ∃ u r, o = .success u r ∧ jsGetField r key = .arr [] ∧
    jsGetField r "total_count" = .num 0

/-- The cross-table operation succeeded with empty `structured_data` and
`summary.total_records = 0`. -/
def succeedsEmptyCross (o : Outcome) : Prop :=
  ∃ u r, o = .success u r ∧ jsGetField r "structured_data" = .arr [] ∧
    jsGetField (jsGetField r "summary") "total_records" = .num 0

/-- C2 counterexample: the claim covers every payload whose `value` field is
"not a list", but a truthy non-iterable `value` (here the number 1) makes the
`for...of` loop throw a TypeError instead of normalizing to an empty result
list. -/
theorem nonList_truthy_value_raises :
    getDimensionsOp (.obj [("value", .num 1)]) =
      .errorAfter { endpoint := some "Dimension", query := [] }
        "TypeError: result.value is not iterable" := by decide

/-- C2 (amended): for every decoded payload whose `value` field is absent,
null, or otherwise JS-falsy (false, 0, the empty string), every operation
returns an empty result list with count 0 (`total_count = 0`; for
get-cross-table, `summary.total_records = 0`) and raises no error. -/
theorem falsy_value_yields_empty_results (p dc ic kw : JSVal)
    (hp : truthy (jsGetField p "value") = false)
    (hic : truthy ic = true) :
    succeedsEmptyList (getDimensionsOp p) "dimensions" ∧
    succeedsEmptyList (getDimensionCodesOp dc p) "codes" ∧
    succeedsEmptyList (getHealthDataOp (.obj [("indicator_code", ic)]) p)
      "data" ∧
    succeedsEmptyList (searchIndicatorsOp kw p) "indicators" ∧
    succeedsEmptyList (getCountryDataOp (.obj [("indicator_code", ic)]) p)
      "data" ∧
    succeedsEmptyCross (getCrossTableOp (.obj [("indicator_code", ic)]) p) := by
  have hicf : truthy (jsGetField (JSVal.obj [("indicator_code", ic)])
      "indicator_code") = true := hic
  have hnul : ¬(jsNullish (JSVal.obj [("indicator_code", ic)]) = true) := by
    simp [jsNullish]
  refine ⟨?_, ?_, ?_, ?_, ?_, ?_⟩
  · unfold getDimensionsOp
    rw [parseValueList_falsy p projDimension hp]
    exact ⟨_, _, rfl, rfl, rfl⟩
  · unfold getDimensionCodesOp
    rw [parseValueList_falsy p projDimensionCode hp]
    exact ⟨_, _, rfl, rfl, rfl⟩
  · unfold getHealthDataOp
    rw [if_neg hnul, healthDataRun_falsy _ _ _ _ _ hicf hp]
    exact ⟨_, _, rfl, rfl, rfl⟩
  · unfold searchIndicatorsOp
    rw [parseValueList_falsy p projIndicator hp]
    exact ⟨_, _, rfl, rfl, rfl⟩
  · unfold getCountryDataOp
    rw [if_neg hnul, if_pos hicf, healthDataRun_falsy _ _ _ _ _ hicf hp]
    exact ⟨_, _, rfl, rfl, rfl⟩
  · unfold getCrossTableOp
    rw [if_neg hnul, if_pos hicf]
    have hcf : crossTableFilter
        (jsGetField (JSVal.obj [("indicator_code", ic)]) "countries")
        (jsGetField (JSVal.obj [("indicator_code", ic)]) "years")
        (jsGetField (JSVal.obj [("indicator_code", ic)]) "sex") =
        .ok none := rfl
    simp only [hcf]
    rw [healthDataRun_falsy _ _ _ _ _ hicf hp]
    exact ⟨_, _, rfl, rfl, rfl⟩

/-- C2 witness: concrete empty-object payload (no `value` field at all),
with concrete parameters for each operation. -/
theorem falsy_value_yields_empty_results_witness :
    succeedsEmptyList (getDimensionsOp (.obj [])) "dimensions" ∧
    succeedsEmptyList (getDimensionCodesOp (.str "COUNTRY") (.obj []))
      "codes" ∧
    succeedsEmptyList (getHealthDataOp
      (.obj [("indicator_code", .str "X")]) (.obj [])) "data" ∧
    succeedsEmptyList (searchIndicatorsOp (.str "life") (.obj []))
      "indicators" ∧
    succeedsEmptyList (getCountryDataOp
      (.obj [("indicator_code", .str "X")]) (.obj [])) "data" ∧
    succeedsEmptyCross (getCrossTableOp
      (.obj [("indicator_code", .str "X")]) (.obj [])) :=
  falsy_value_yields_empty_results (.obj []) (.str "COUNTRY") (.str "X")
    (.str "life") (by decide) (by decide)

/-- C3 (divergence evidence): a `year` containing `:` is passed verbatim into
an equality clause by `getCountryData` (producing `TimeDim eq 2015:2020`,
not a range), while the same value given to `getCrossTable` as `years` is
parsed into the inclusive `ge`/`le` range; the tool schema documents
year ranges (e.g. `2015:2020`) for get_country_data's `year` parameter. -/
theorem countryData_year_range_not_parsed :
    countryDataFilter .undef (.str "2015:2020") .undef =
      some "TimeDim eq 2015:2020"
  ∧ outboundFilter (callTool (.obj [("method", .str "get_country_data"),
      ("indicator_code", .str "X"), ("year", .str "2015:2020")]) (.obj [])) =
      some "TimeDim eq 2015:2020"
  ∧ crossTableFilter .undef (.str "2015:2020") .undef =
      .ok (some "TimeDim ge 2015 and TimeDim le 2020") :=
  ⟨by decide, by decide, by rfl⟩

/-- C4: with the dimension code (for get_dimension_codes) or the keywords
(for search_indicators) absent or otherwise falsy, the dispatcher throws its
MissingParameter error before any network call (an `errorBefore` outcome). -/
theorem missing_dimension_code_or_keywords_fails_before_network
    (args p : JSVal) :
    (jsGetField args "method" = .str "get_dimension_codes" →
      truthy (jsGetField args "dimension_code") = false →
      callTool args p = .errorBefore
        "dimension_code parameter is required for get_dimension_codes")
  ∧ (jsGetField args "method" = .str "search_indicators" →
      truthy (jsGetField args "keywords") = false →
      callTool args p = .errorBefore
        "keywords parameter is required for search_indicators") := by
  constructor
  · intro hm hdc
    have hnul : ¬(jsNullish args = true) := by
      simp [jsNullish_eq_false_of_getField hm]
    unfold callTool
    rw [if_neg hnul, hm]
    rw [if_neg (by decide), if_pos rfl,
      jsGetField_omit args "method" "dimension_code" (by decide),
      if_neg (by simp [hdc])]
  · intro hm hkw
    have hnul : ¬(jsNullish args = true) := by
      simp [jsNullish_eq_false_of_getField hm]
    unfold callTool
    rw [if_neg hnul, hm]
    rw [if_neg (by decide), if_neg (by decide), if_neg (by decide),
      if_pos rfl, jsGetField_omit args "method" "keywords" (by decide),
      if_neg (by simp [hkw])]

/-- C4 witness: concrete calls with the required parameter absent. -/
theorem missing_dimension_code_or_keywords_witness :
    callTool (.obj [("method", .str "get_dimension_codes")]) (.obj []) =
      .errorBefore
        "dimension_code parameter is required for get_dimension_codes"
  ∧ callTool (.obj [("method", .str "search_indicators")]) (.obj []) =
      .errorBefore "keywords parameter is required for search_indicators" :=
  ⟨(missing_dimension_code_or_keywords_fails_before_network
      (.obj [("method", .str "get_dimension_codes")]) (.obj [])).1
      (by decide) (by decide),
   (missing_dimension_code_or_keywords_fails_before_network
      (.obj [("method", .str "search_indicators")]) (.obj [])).2
      (by decide) (by decide)⟩

/-- C5: with the indicator code absent or otherwise falsy, each of
get_health_data, get_country_data and get_cross_table throws its
MissingParameter error before any network call (an `errorBefore` outcome). -/
theorem missing_indicator_code_fails_before_network (args p : JSVal)
    (hic : truthy (jsGetField args "indicator_code") = false) :
    (jsGetField args "method" = .str "get_health_data" →
      callTool args p = .errorBefore
        "indicator_code parameter is required for get_health_data")
  ∧ (jsGetField args "method" = .str "get_country_data" →
      callTool args p = .errorBefore
        "indicator_code parameter is required for get_country_data")
  ∧ (jsGetField args "method" = .str "get_cross_table" →
      callTool args p = .errorBefore
        "indicator_code parameter is required for get_cross_table") := by
  refine ⟨?_, ?_, ?_⟩
  · intro hm
    have hnul : ¬(jsNullish args = true) := by
      simp [jsNullish_eq_false_of_getField hm]
    unfold callTool
    rw [if_neg hnul, hm]
    rw [if_neg (by decide), if_neg (by decide), if_pos rfl,
      jsGetField_omit args "method" "indicator_code" (by decide),
      if_neg (by simp [hic])]
  · intro hm
    have hnul : ¬(jsNullish args = true) := by
      simp [jsNullish_eq_false_of_getField hm]
    unfold callTool
    rw [if_neg hnul, hm]
    rw [if_neg (by decide), if_neg (by decide), if_neg (by decide),
      if_neg (by decide), if_pos rfl,
      jsGetField_omit args "method" "indicator_code" (by decide),
      if_neg (by simp [hic])]
  · intro hm
    have hnul : ¬(jsNullish args = true) := by
      simp [jsNullish_eq_false_of_getField hm]
    unfold callTool
    rw [if_neg hnul, hm]
    rw [if_neg (by decide), if_neg (by decide), if_neg (by decide),
      if_neg (by decide), if_neg (by decide), if_pos rfl,
      jsGetField_omit args "method" "indicator_code" (by decide),
      if_neg (by simp [hic])]

/-- C5 witness: concrete calls with no indicator code at all. -/
theorem missing_indicator_code_witness :
    callTool (.obj [("method", .str "get_health_data")]) (.obj []) =
      .errorBefore "indicator_code parameter is required for get_health_data"
  ∧ callTool (.obj [("method", .str "get_country_data")]) (.obj []) =
      .errorBefore "indicator_code parameter is required for get_country_data"
  ∧ callTool (.obj [("method", .str "get_cross_table")]) (.obj []) =
      .errorBefore
        "indicator_code parameter is required for get_cross_table" :=
  ⟨(missing_indicator_code_fails_before_network
      (.obj [("method", .str "get_health_data")]) (.obj [])
      (by decide)).1 (by decide),
   (missing_indicator_code_fails_before_network
      (.obj [("method", .str "get_country_data")]) (.obj [])
      (by decide)).2.1 (by decide),
   (missing_indicator_code_fails_before_network
      (.obj [("method", .str "get_cross_table")]) (.obj [])
      (by decide)).2.2 (by decide)⟩

/-- The element list of an array value (empty for non-arrays). -/
def jsArrElems : JSVal → List JSVal
  | .arr xs => xs
  | _ => []

/-- C6: on every successful get-cross-table call, `summary.unique_countries`
is the number of distinct `spatial_dim` values present in `structured_data`,
`summary.unique_years` is the number of distinct `time_dim` values, and
`summary.total_records` is the length of `structured_data`. -/
theorem crossTable_summary_counts (params p : JSVal) (u : WhoUrl) (r : JSVal)
    (xs : List JSVal) (h : getCrossTableOp params p = .success u r)
    (hxs : jsGetField r "structured_data" = .arr xs) :
    jsGetField (jsGetField r "summary") "unique_countries" =
      .num ((xs.map (fun d => jsGetField d "spatial_dim")).toFinset.card)
  ∧ jsGetField (jsGetField r "summary") "unique_years" =
      .num ((xs.map (fun d => jsGetField d "time_dim")).toFinset.card)
  ∧ jsGetField (jsGetField r "summary") "total_records" =
      .num xs.length := by
  unfold getCrossTableOp at h
  by_cases hn : jsNullish params = true
  · rw [if_pos hn] at h
    exact Outcome.noConfusion h
  · rw [if_neg hn] at h
    by_cases htr : truthy (jsGetField params "indicator_code") = true
    · rw [if_pos htr] at h
      cases hcf : crossTableFilter (jsGetField params "countries")
          (jsGetField params "years") (jsGetField params "sex") with
      | error e =>
        simp only [hcf] at h
        exact Outcome.noConfusion h
      | ok fs =>
        simp only [hcf] at h
        cases hrun : healthDataRun (jsGetField params "indicator_code")
            (optFilterToJS fs)
            (match jsGetField params "top" with
              | .undef => .num 1000
              | v => v)
            (.str "SpatialDim, TimeDim desc") p with
        | noCall m => simp [hrun] at h
        | failed url m => simp [hrun] at h
        | ok url data =>
          simp only [hrun] at h
          cases h
          have hdx : JSVal.arr data = JSVal.arr xs := hxs
          have hde : data = xs := by injection hdx
          subst hde
          refine ⟨?_, ?_, rfl⟩
          · show JSVal.num (jsSetSize
                (data.map (fun d => jsGetField d "spatial_dim"))) = _
            rw [jsSetSize_eq_card]
          · show JSVal.num (jsSetSize
                (data.map (fun d => jsGetField d "time_dim"))) = _
            rw [jsSetSize_eq_card]
    · rw [if_neg htr] at h
      exact Outcome.noConfusion h

/-- Cross-table parameters for the summary witness. -/
def c6Params : JSVal := .obj [("indicator_code", .str "X")]

/-- A payload with duplicate countries and years and a record with the
spatial dimension missing. -/
def c6Payload : JSVal := .obj [("value", .arr [
  .obj [("SpatialDim", .str "USA"), ("TimeDim", .num 2019),
    ("NumericValue", .num 7)],
  .obj [("SpatialDim", .str "USA"), ("TimeDim", .num 2018)],
  .obj [("TimeDim", .num 2018)]])]

/-- The cross-table result object for the summary witness. -/
def c6Res : JSVal := outcomeRes (getCrossTableOp c6Params c6Payload)

/-- The structured rows of the summary witness result. -/
def c6Data : List JSVal := jsArrElems (jsGetField c6Res "structured_data")

/-- C6 witness: three records with duplicate and missing dimension values. -/
theorem crossTable_summary_counts_witness :
    jsGetField (jsGetField c6Res "summary") "unique_countries" =
      .num ((c6Data.map (fun d => jsGetField d "spatial_dim")).toFinset.card)
  ∧ jsGetField (jsGetField c6Res "summary") "unique_years" =
      .num ((c6Data.map (fun d => jsGetField d "time_dim")).toFinset.card)
  ∧ jsGetField (jsGetField c6Res "summary") "total_records" =
      .num c6Data.length :=
  crossTable_summary_counts c6Params c6Payload
    { endpoint := some "X"
      query := [("$top", "1000"), ("$orderby", "SpatialDim, TimeDim desc")] }
    c6Res c6Data (by rfl) (by rfl)

/-- C7: calling get_cross_table with indicator_code "X", countries
"USA,FRA" and years "2018:2020" sends the filter
`SpatialDim in (\x27USA\x27,\x27FRA\x27) and TimeDim ge 2018 and TimeDim le 2020`
upstream, the two clauses joined with ` and `. -/
theorem crossTable_filter_scenario :
    outboundFilter (callTool (.obj [("method", .str "get_cross_table"),
      ("indicator_code", .str "X"), ("countries", .str "USA,FRA"),
      ("years", .str "2018:2020")]) (.obj [("value", .arr [])])) =
      some "SpatialDim in (\x27USA\x27,\x27FRA\x27) and TimeDim ge 2018 and TimeDim le 2020"
  ∧ crossTableFilter (.str "USA,FRA") (.str "2018:2020") .undef =
      .ok (some "SpatialDim in (\x27USA\x27,\x27FRA\x27) and TimeDim ge 2018 and TimeDim le 2020") :=
  ⟨by decide, by rfl⟩

/-- A failed health-data run was issued at the health-data URL. -/
theorem healthDataRun_failed_url (ic f t o p : JSVal) (url : WhoUrl)
    (msg : String) (h : healthDataRun ic f t o p = .failed url msg) :
    url = hdUrl f t o ic := by
  unfold healthDataRun at h
  by_cases hic : truthy ic = true
  · rw [if_pos hic] at h
    cases hpv : parseValueList p (projDataPoint ic) with
    | error e =>
      simp only [hpv] at h
      cases h
      rfl
    | ok data => simp [hpv] at h
  · rw [if_neg hic] at h
    exact HDRun.noConfusion h

/-- A successful health-data run was issued at the health-data URL. -/
theorem healthDataRun_ok_url (ic f t o p : JSVal) (url : WhoUrl)
    (data : List JSVal) (h : healthDataRun ic f t o p = .ok url data) :
    url = hdUrl f t o ic := by
  unfold healthDataRun at h
  by_cases hic : truthy ic = true
  · rw [if_pos hic] at h
    cases hpv : parseValueList p (projDataPoint ic) with
    | error e => simp [hpv] at h
    | ok ys =>
      simp only [hpv] at h
      cases h
      rfl
  · rw [if_neg hic] at h
    exact HDRun.noConfusion h

/-- When the derived filter argument is falsy, the health-data URL carries no
`$filter` query parameter at all. -/
theorem hdUrl_no_filter (ic f t o : JSVal) (hf : truthy f = false) :
    lookupParam (hdUrl f t o ic) "$filter" = none := by
  apply lookupParam_generate_none
  intro e he
  rw [if_neg (by simp [hf])] at he
  rw [List.nil_append] at he
  rcases List.mem_append.mp he with hl | hr
  · by_cases ht : truthy t = true
    · rw [if_pos ht] at hl
      simp only [List.mem_singleton] at hl
      subst hl
      show ("$top" : String) ≠ "$filter"
      decide
    · rw [if_neg ht] at hl
      exact absurd hl (List.not_mem_nil e)
  · by_cases ho : truthy o = true
    · rw [if_pos ho] at hr
      simp only [List.mem_singleton] at hr
      subst hr
      show ("$orderby" : String) ≠ "$filter"
      decide
    · rw [if_neg ho] at hr
      exact absurd hr (List.not_mem_nil e)

/-- C8: with no country/year/sex (and for the cross table no
countries/years/sex) constraint set, the derived filter of getCountryData is
null, the derived filter of getCrossTable is null, and whenever an outbound
URL is built for either operation its query string contains no `$filter`
parameter at all. -/
theorem no_constraints_no_filter (args p : JSVal)
    (hcc : truthy (jsGetField args "country_code") = false)
    (hy : truthy (jsGetField args "year") = false)
    (hsx : truthy (jsGetField args "sex") = false)
    (hco : truthy (jsGetField args "countries") = false)
    (hys : truthy (jsGetField args "years") = false) :
    countryDataFilter (jsGetField args "country_code")
      (jsGetField args "year") (jsGetField args "sex") = none
  ∧ crossTableFilter (jsGetField args "countries")
      (jsGetField args "years") (jsGetField args "sex") = .ok none
  ∧ (∀ u, outcomeUrl (getCountryDataOp args p) = some u →
      lookupParam u "$filter" = none)
  ∧ (∀ u, outcomeUrl (getCrossTableOp args p) = some u →
      lookupParam u "$filter" = none) := by
  have h1 : countryDataFilter (jsGetField args "country_code")
      (jsGetField args "year") (jsGetField args "sex") = none := by
    simp [countryDataFilter, hcc, hy, hsx]
  have h2 : crossTableFilter (jsGetField args "countries")
      (jsGetField args "years") (jsGetField args "sex") = .ok none := by
    simp [crossTableFilter, hco, hys, hsx]
  refine ⟨h1, h2, ?_, ?_⟩
  · intro u hu
    unfold getCountryDataOp at hu
    by_cases hn : jsNullish args = true
    · rw [if_pos hn] at hu
      simp [outcomeUrl] at hu
    · rw [if_neg hn] at hu
      by_cases htr : truthy (jsGetField args "indicator_code") = true
      · rw [if_pos htr, h1] at hu
        cases hrun : healthDataRun (jsGetField args "indicator_code")
            (optFilterToJS none) (jsGetField args "top")
            (.str "TimeDim desc") p with
        | noCall m =>
          rw [hrun] at hu
          simp [healthEnvelope, outcomeUrl] at hu
        | failed url m =>
          rw [hrun] at hu
          simp only [healthEnvelope, outcomeUrl, Option.some.injEq] at hu
          subst hu
          rw [healthDataRun_failed_url _ _ _ _ _ _ _ hrun]
          exact hdUrl_no_filter _ _ _ _ rfl
        | ok url data =>
          rw [hrun] at hu
          simp only [healthEnvelope, outcomeUrl, Option.some.injEq] at hu
          subst hu
          rw [healthDataRun_ok_url _ _ _ _ _ _ _ hrun]
          exact hdUrl_no_filter _ _ _ _ rfl
      · rw [if_neg htr] at hu
        simp [outcomeUrl] at hu
  · intro u hu
    unfold getCrossTableOp at hu
    by_cases hn : jsNullish args = true
    · rw [if_pos hn] at hu
      simp [outcomeUrl] at hu
    · rw [if_neg hn] at hu
      by_cases htr : truthy (jsGetField args "indicator_code") = true
      · rw [if_pos htr] at hu
        simp only [h2] at hu
        cases hrun : healthDataRun (jsGetField args "indicator_code")
            (optFilterToJS none)
            (match jsGetField args "top" with
              | .undef => .num 1000
              | v => v)
            (.str "SpatialDim, TimeDim desc") p with
        | noCall m =>
          simp [hrun, outcomeUrl] at hu
        | failed url m =>
          simp only [hrun, outcomeUrl, Option.some.injEq] at hu
          subst hu
          rw [healthDataRun_failed_url _ _ _ _ _ _ _ hrun]
          exact hdUrl_no_filter _ _ _ _ rfl
        | ok url data =>
          simp only [hrun, outcomeUrl, Option.some.injEq] at hu
          subst hu
          rw [healthDataRun_ok_url _ _ _ _ _ _ _ hrun]
          exact hdUrl_no_filter _ _ _ _ rfl
      · rw [if_neg htr] at hu
        simp [outcomeUrl] at hu

/-- C8 witness: a request carrying only the indicator code. -/
theorem no_constraints_no_filter_witness :
    lookupParam ⟨some "X", [("$orderby", "TimeDim desc")]⟩ "$filter" = none
  ∧ lookupParam ⟨some "X", [("$top", "1000"),
      ("$orderby", "SpatialDim, TimeDim desc")]⟩ "$filter" = none :=
  ⟨(no_constraints_no_filter (.obj [("indicator_code", .str "X")]) (.obj [])
      (by decide) (by decide) (by decide) (by decide) (by decide)).2.2.1
      ⟨some "X", [("$orderby", "TimeDim desc")]⟩ (by decide),
   (no_constraints_no_filter (.obj [("indicator_code", .str "X")]) (.obj [])
      (by decide) (by decide) (by decide) (by decide) (by decide)).2.2.2
      ⟨some "X", [("$top", "1000"),
        ("$orderby", "SpatialDim, TimeDim desc")]⟩ (by decide)⟩

/-- C9: the record with a textual Value, SpatialDim USA, TimeDim 2019 and no
NumericValue projects to a DataPoint with `value = "12.3"`,
`numeric_value = null`, `display_value = "12.3"`, and every other missing
field defaulted to the empty string. -/
theorem healthData_projection_scenario :
    getHealthDataOp (.obj [("indicator_code", .str "IND")])
      (.obj [("value", .arr [.obj [("Value", .str "12.3"),
        ("SpatialDim", .str "USA"), ("TimeDim", .num 2019)]])]) =
    .success ⟨some "IND", []⟩ (.obj [
      ("indicator", .str "IND"),
      ("data", .arr [.obj [
        ("indicator", .str "IND"),
        ("value", .str "12.3"),
        ("numeric_value", .null),
        ("display_value", .str "12.3"),
        ("spatial_dim", .str "USA"),
        ("time_dim", .num 2019),
        ("time_dim_begin", .str ""),
        ("time_dim_end", .str ""),
        ("dim1", .str ""),
        ("dim2", .str ""),
        ("dim3", .str ""),
        ("comments", .str ""),
        ("data_source_code", .str "")]]),
      ("total_count", .num 1),
      ("source", .str sourceLabel),
      ("api_url", .str "https://ghoapi.azureedge.net/api/IND")]) := by decide

/-- C10: when the textual `Value` field is absent and a non-zero
`NumericValue` is present, the projected `value` falls back to the numeric
field while `display_value` stays the empty string (and `numeric_value`
carries the same number), so `value` and `display_value` differ. -/
theorem value_falls_back_to_numeric (ic fact : JSVal) (n : Int)
    (hv : jsGetField fact "Value" = .undef)
    (hn : jsGetField fact "NumericValue" = .num n) (hnz : n ≠ 0) :
    ∃ dp, projDataPoint ic fact = .ok dp ∧
      jsGetField dp "value" = .num n ∧
      jsGetField dp "display_value" = .str "" ∧
      jsGetField dp "numeric_value" = .num n := by
  cases fact
  case obj fields =>
    refine ⟨_, rfl, ?_, ?_, ?_⟩
    · show jsOr (jsOr (jsGetField (JSVal.obj fields) "Value")
        (jsGetField (JSVal.obj fields) "NumericValue")) (.str "") = .num n
      rw [hv, hn]
      rw [show jsOr JSVal.undef (JSVal.num n) = JSVal.num n from rfl]
      unfold jsOr
      rw [if_pos (show truthy (JSVal.num n) = true by simp [truthy, hnz])]
    · show jsOr (jsGetField (JSVal.obj fields) "Value") (.str "") = .str ""
      rw [hv]
      rfl
    · show jsOr (jsGetField (JSVal.obj fields) "NumericValue") .null = .num n
      rw [hn]
      unfold jsOr
      rw [if_pos (show truthy (JSVal.num n) = true by simp [truthy, hnz])]
  all_goals exact absurd hn (by simp [jsGetField])

/-- C10 witness: a record carrying only `NumericValue = 5`. -/
theorem value_falls_back_to_numeric_witness :
    ∃ dp, projDataPoint (.str "X")
        (.obj [("NumericValue", .num 5), ("SpatialDim", .str "USA")]) =
        .ok dp ∧
      jsGetField dp "value" = .num 5 ∧
      jsGetField dp "display_value" = .str "" ∧
      jsGetField dp "numeric_value" = .num 5 :=
  value_falls_back_to_numeric (.str "X")
    (.obj [("NumericValue", .num 5), ("SpatialDim", .str "USA")]) 5
    (by decide) (by decide) (by decide)
